import Mathlib

/-!
Verification of the vga_ball driver and its userspace controller.

The kernel driver (vga_ball.c) owns an in-memory mirror of the device
state and translates ioctl commands into ordered 32-bit register writes
at fixed byte offsets.  The userspace program (hello.c) decodes raw
keyboard bytes into events and drives the ball position through the
driver, including a one-second triangular jump/duck animation.

The embedding below models:
  * the driver's device structure, its two register-writing helpers and
    the ioctl dispatcher, with the register bus abstracted as a trace of
    (offset, 32-bit value) writes;
  * the probe-time initialization;
  * the input-decoding loop of hello.c as a pure function from a byte
    buffer to a list of events;
  * the animation loop of hello.c, with the monotonic clock abstracted
    as a list of sampled elapsed times and C doubles modelled as exact
    rationals (the claims checked here are about the symbolic formulas
    and control flow, not float rounding).

The header vga_ball.h is not part of the sources; the four ioctl command
codes are opaque constants there, so commands are modelled as an
inductive type with one constructor per case of the dispatcher's switch
plus a constructor for every other code.  The payload structures follow
the spec's table (Color is three 8-bit channels, Position two i32s);
fields are modelled as Nat / Int, with the 32-bit narrowing of iowrite32
made explicit in the trace values.
-/

/-- One 32-bit register write: byte offset from the base address and the
32-bit word written there (as a natural number below 2^32). -/
structure RegWrite where
  offset : Nat
  value : Nat
deriving DecidableEq, Repr

/-- The u32 value that iowrite32 stores for a C int argument:
two's-complement reduction modulo 2^32. -/
def u32ofInt (i : Int) : Nat := (i % (2 ^ 32 : Int)).toNat

/-- The u32 value that iowrite32 stores for an unsigned channel value. -/
def u32ofNat (n : Nat) : Nat := n % 2 ^ 32

/-- Background color payload: three 8-bit channels (vga_ball_color_t). -/
structure vga_ball_color_t where
  red : Nat
  green : Nat
  blue : Nat
deriving DecidableEq, Repr

/-- Ball position payload: two signed 32-bit coordinates (vga_ball_pos_t). -/
structure vga_ball_pos_t where
  xcoor : Int
  ycoor : Int
deriving DecidableEq, Repr

/-- ioctl argument wrapper (vga_ball_arg_t) carrying a background color. -/
structure vga_ball_arg_t where
  background : vga_ball_color_t
deriving DecidableEq, Repr

/-- Driver-side device state: the in-memory mirror of the last written
background color and ball position (struct vga_ball_dev, minus the
resource/iomap plumbing that is out of scope). -/
structure vga_ball_dev where
  background : vga_ball_color_t
  position : vga_ball_pos_t
deriving DecidableEq, Repr

/-- The ioctl command codes.  Their numeric values live in the missing
header vga_ball.h and are opaque; the dispatcher's switch has exactly
four cases plus a default, modelled by `other code` for any other
command number. -/
inductive VgaCmd where
  | writeBackground
  | readBackground
  | writePos
  | readPos
  | other (code : Nat)
deriving DecidableEq, Repr

/-- Register byte offsets, from the BALL_XCOOR/BALL_YCOOR/BG_* macros. -/
def BALL_XCOOR_OFF : Nat := 0

def BALL_YCOOR_OFF : Nat := 4

def BG_RED_OFF : Nat := 8

def BG_GREEN_OFF : Nat := 12

def BG_BLUE_OFF : Nat := 16

/-- write_background: iowrite32 red at +8, green at +12, blue at +16 (in
that order), then store the color into the mirror.  Returns the updated
device state and the emitted register-write trace. -/
def write_background (background : vga_ball_color_t) (d : vga_ball_dev) :
    vga_ball_dev × List RegWrite :=
  ({ d with background := background },
   [⟨BG_RED_OFF, u32ofNat background.red⟩,
    ⟨BG_GREEN_OFF, u32ofNat background.green⟩,
    ⟨BG_BLUE_OFF, u32ofNat background.blue⟩])

/-- write_pos: iowrite32 the X coordinate at +0 then the Y coordinate at
+4.  The mirror is NOT updated here (the ioctl handler does that after
the call), matching the comment in the source. -/
def write_pos (pos : vga_ball_pos_t) (d : vga_ball_dev) :
    vga_ball_dev × List RegWrite :=
  (d,
   [⟨BALL_XCOOR_OFF, u32ofInt pos.xcoor⟩,
    ⟨BALL_YCOOR_OFF, u32ofInt pos.ycoor⟩])

/-- errno value EACCES (copy_from_user / copy_to_user fault). -/
def EACCES : Int := 13

/-- errno value EINVAL (unrecognized ioctl command). -/
def EINVAL : Int := 22

/-- Result of one ioctl call: the returned status, the device state
afterwards, the register writes performed, and the payloads copied back
to userspace (some only when the copy succeeded). -/
structure IoctlOut where
  status : Int
  dev : vga_ball_dev
  writes : List RegWrite
  backOut : Option vga_ball_arg_t
  posOut : Option vga_ball_pos_t
deriving DecidableEq, Repr

/-- vga_ball_ioctl.  User memory is abstracted: `fromUserArg` /
`fromUserPos` are the payloads copy_from_user would fetch (`none` models
a copy fault), and `toUserOk` tells whether copy_to_user succeeds.  The
switch mirrors the source case by case; `status` stays 0 on every path
that reaches the final `return status`. -/
def vga_ball_ioctl (d : vga_ball_dev) (cmd : VgaCmd)
    (fromUserArg : Option vga_ball_arg_t)
    (fromUserPos : Option vga_ball_pos_t)
    (toUserOk : Bool) : IoctlOut :=
  match cmd with
  | VgaCmd.writeBackground =>
    match fromUserArg with
    | none => ⟨-EACCES, d, [], none, none⟩
    | some vla =>
      let r := write_background vla.background d
      ⟨0, r.1, r.2, none, none⟩
  | VgaCmd.readBackground =>
    let vla : vga_ball_arg_t := ⟨d.background⟩
    if toUserOk then ⟨0, d, [], some vla, none⟩
    else ⟨-EACCES, d, [], none, none⟩
  | VgaCmd.writePos =>
    match fromUserPos with
    | none => ⟨-EACCES, d, [], none, none⟩
    | some bpos =>
      let r := write_pos bpos d
      ⟨0, { r.1 with position := bpos }, r.2, none, none⟩
  | VgaCmd.readPos =>
    if toUserOk then ⟨0, d, [], none, some d.position⟩
    else ⟨-EACCES, d, [], none, none⟩
  | VgaCmd.other _ => ⟨-EINVAL, d, [], none, none⟩

/-- vga_ball_probe, restricted to its state initialization: write the
beige default background through write_background, then set the mirrored
position to the screen center (320, 240) without touching the position
registers.  Returns the device state and the register-write trace. -/
def vga_ball_probe_init (d0 : vga_ball_dev) : vga_ball_dev × List RegWrite :=
  let beige : vga_ball_color_t := ⟨0xf9, 0xe4, 0xb7⟩
  let r := write_background beige d0
  ({ r.1 with position := ⟨320, 240⟩ }, r.2)

/-- C1: for every position p, WRITE_POS with payload p succeeds (status
0), and a READ_POS issued immediately afterwards returns exactly p from
the mirror, performing no register access. -/
theorem read_pos_after_write_pos (d : vga_ball_dev) (p : vga_ball_pos_t)
    (a : Option vga_ball_arg_t) (q : Option vga_ball_pos_t) (b : Bool) :
    (vga_ball_ioctl d VgaCmd.writePos a (some p) b).status = 0 ∧
    (vga_ball_ioctl (vga_ball_ioctl d VgaCmd.writePos a (some p) b).dev
        VgaCmd.readPos a q true).posOut = some p ∧
    (vga_ball_ioctl (vga_ball_ioctl d VgaCmd.writePos a (some p) b).dev
        VgaCmd.readPos a q true).writes = [] := by
  refine ⟨rfl, rfl, rfl⟩

/-- C2: for every color c, WRITE_BACKGROUND with payload c succeeds
(status 0), and a READ_BACKGROUND issued immediately afterwards returns
exactly c from the mirror, performing no register access. -/
theorem read_background_after_write_background (d : vga_ball_dev)
    (c : vga_ball_color_t) (q : Option vga_ball_pos_t) (b : Bool) :
    (vga_ball_ioctl d VgaCmd.writeBackground (some ⟨c⟩) q b).status = 0 ∧
    (vga_ball_ioctl (vga_ball_ioctl d VgaCmd.writeBackground (some ⟨c⟩) q b).dev
        VgaCmd.readBackground none q true).backOut = some ⟨c⟩ ∧
    (vga_ball_ioctl (vga_ball_ioctl d VgaCmd.writeBackground (some ⟨c⟩) q b).dev
        VgaCmd.readBackground none q true).writes = [] := by
  refine ⟨rfl, rfl, rfl⟩

/-- C3: the register-write trace of WRITE_POS(p) is exactly the word of
p.x at offset +0 followed by the word of p.y at +4, and the trace of
WRITE_BACKGROUND(c) is exactly red at +8, green at +12, blue at +16, in
those orders. -/
theorem write_trace_layout (d : vga_ball_dev) (p : vga_ball_pos_t)
    (c : vga_ball_color_t) (a : Option vga_ball_arg_t)
    (q : Option vga_ball_pos_t) (b : Bool) :
    (vga_ball_ioctl d VgaCmd.writePos a (some p) b).writes =
      [⟨0, u32ofInt p.xcoor⟩, ⟨4, u32ofInt p.ycoor⟩] ∧
    (vga_ball_ioctl d VgaCmd.writeBackground (some ⟨c⟩) q b).writes =
      [⟨8, u32ofNat c.red⟩, ⟨12, u32ofNat c.green⟩, ⟨16, u32ofNat c.blue⟩] := by
  refine ⟨rfl, rfl⟩

/-- C7: any command code other than the four recognized ones makes the
dispatcher return -EINVAL, with no register write, no state change and
no data copied out. -/
theorem invalid_command_rejected (d : vga_ball_dev) (code : Nat)
    (a : Option vga_ball_arg_t) (q : Option vga_ball_pos_t) (b : Bool) :
    vga_ball_ioctl d (VgaCmd.other code) a q b = ⟨-EINVAL, d, [], none, none⟩ := by
  rfl

/-- C9: after probe, before any write command, READ_BACKGROUND returns
the beige default (0xf9, 0xe4, 0xb7) and READ_POS returns the center
(320, 240); the probe trace writes only the three color registers and
never the position registers at +0 / +4. -/
theorem probe_defaults (d0 : vga_ball_dev) (a : Option vga_ball_arg_t)
    (q : Option vga_ball_pos_t) :
    (vga_ball_ioctl (vga_ball_probe_init d0).1 VgaCmd.readBackground a q
        true).backOut = some ⟨⟨0xf9, 0xe4, 0xb7⟩⟩ ∧
    (vga_ball_ioctl (vga_ball_probe_init d0).1 VgaCmd.readPos a q
        true).posOut = some ⟨320, 240⟩ ∧
    (vga_ball_probe_init d0).2 =
      [⟨8, 0xf9⟩, ⟨12, 0xe4⟩, ⟨16, 0xb7⟩] := by
  refine ⟨rfl, rfl, rfl⟩

/-- C10: when the user-copy of a write command's payload faults, the
command returns -EACCES, performs no register write, and leaves the
device mirror exactly as it was. -/
theorem write_fault_atomic (d : vga_ball_dev) (a : Option vga_ball_arg_t)
    (q : Option vga_ball_pos_t) (b : Bool) :
    vga_ball_ioctl d VgaCmd.writeBackground none q b =
      ⟨-EACCES, d, [], none, none⟩ ∧
    vga_ball_ioctl d VgaCmd.writePos a none b =
      ⟨-EACCES, d, [], none, none⟩ := by
  refine ⟨rfl, rfl⟩

/-- Logical events produced by the input-decoding loop in hello.c's main:
arrow-up starts a jump, arrow-down starts a duck, q/Q quits. -/
inductive Event where
  | ARROW_UP
  | ARROW_DOWN
  | QUIT
deriving DecidableEq, Repr

/-- The byte-processing loop of hello.c's main, as a pure function from
one read buffer (bytes as naturals) to the in-order list of events it
acts on.  An escape byte 0x1B followed in the same buffer by at least
two bytes whose first is 0x5B consumes all three bytes and yields an
event only for third byte 0x41 (up) or 0x42 (down); an escape not in
that shape is just skipped; byte q (0x71) or Q (0x51) quits and stops
processing the rest of the buffer; any other byte is ignored. -/
def decode_bytes : List Nat → List Event
  | [] => []
  | c :: rest =>
    if c = 0x1B then
      match rest with
      | b1 :: b2 :: rest2 =>
        if b1 = 0x5B then
          (if b2 = 0x41 then [Event.ARROW_UP]
           else if b2 = 0x42 then [Event.ARROW_DOWN]
           else []) ++ decode_bytes rest2
        else decode_bytes (b1 :: b2 :: rest2)
      | short => decode_bytes short
    else if c = 0x71 ∨ c = 0x51 then [Event.QUIT]
    else decode_bytes rest

/-- Helper: a q byte quits and discards the rest of the buffer. -/
lemma decode_bytes_q (s : List Nat) : decode_bytes (0x71 :: s) = [Event.QUIT] := by
  cases s with
  | nil => rfl
  | cons a t =>
    cases t with
    | nil => rfl
    | cons b u => rfl

/-- Helper: a Q byte quits and discards the rest of the buffer. -/
lemma decode_bytes_Q (s : List Nat) : decode_bytes (0x51 :: s) = [Event.QUIT] := by
  cases s with
  | nil => rfl
  | cons a t =>
    cases t with
    | nil => rfl
    | cons b u => rfl

/-- C4: a full escape sequence with third byte 0x41 yields exactly one
ARROW_UP and consumption continues after its three bytes; third byte
0x42 likewise yields exactly one ARROW_DOWN; any other third byte yields
no event with all three bytes consumed; and a q or Q byte yields QUIT
and stops decoding, whatever follows in the buffer. -/
theorem decode_tokens (s : List Nat) (b : Nat) :
    decode_bytes (0x1B :: 0x5B :: 0x41 :: s) = Event.ARROW_UP :: decode_bytes s ∧
    decode_bytes (0x1B :: 0x5B :: 0x42 :: s) = Event.ARROW_DOWN :: decode_bytes s ∧
    (b ≠ 0x41 → b ≠ 0x42 → decode_bytes (0x1B :: 0x5B :: b :: s) = decode_bytes s) ∧
    decode_bytes (0x71 :: s) = [Event.QUIT] ∧
    decode_bytes (0x51 :: s) = [Event.QUIT] := by
  refine ⟨rfl, rfl, fun h1 h2 => ?_, decode_bytes_q s, decode_bytes_Q s⟩
  simp [decode_bytes, h1, h2]

/-- Closed instance of decode_tokens: the sequence ESC [ X produces no
event even with trailing bytes, and they are still decoded. -/
theorem decode_tokens_witness :
    decode_bytes [0x1B, 0x5B, 0x58, 0x71] = [Event.QUIT] := by
  have h := (decode_tokens [0x71] 0x58).2.2.1 (by decide) (by decide)
  rw [h]
  exact (decode_tokens [] 0x58).2.2.2.1

/-- C8: an escape byte followed by fewer than two bytes in the same
buffer is dropped without producing an event — a lone trailing escape
decodes to nothing, and an escape followed by a single byte decodes as
if only that byte were present; decoding is a pure function of the one
buffer, so the two halves of a split escape sequence each decode to
nothing even though the whole buffer decodes to an event. -/
theorem escape_not_buffered (b : Nat) :
    decode_bytes [0x1B] = [] ∧
    decode_bytes (0x1B :: [b]) = decode_bytes [b] ∧
    decode_bytes [0x5B, 0x41] = [] ∧
    decode_bytes [0x1B, 0x5B, 0x41] = [Event.ARROW_UP] := by
  refine ⟨rfl, ?_, rfl, rfl⟩
  simp [decode_bytes]

/-- C's (int) conversion applied to an in-range double: truncation
toward zero of the value, here modelled on exact rationals. -/
def ratTrunc (q : ℚ) : Int := if 0 ≤ q then ⌊q⌋ else ⌈q⌉

/-- One iteration body of animate_movement's do-while loop: given the
elapsed time (seconds, as an exact rational; animation_duration is the
source's fixed 1.0), the Y value this frame writes, or none when the
loop hits the else branch and breaks without writing.  Formulas are the
source's: first half writes start_y + (int)((target_y - start_y) *
(elapsed / (duration / 2))); second half writes target_y +
(int)((start_y - target_y) * ((elapsed - duration / 2) / (duration /
2))). -/
def animate_frame_y (start_y target_y : Int) (elapsed : ℚ) : Option Int :=
  if elapsed < 1 / 2 then
    some (start_y + ratTrunc (((target_y : ℚ) - (start_y : ℚ)) * (elapsed / (1 / 2))))
  else if elapsed < 1 then
    some (target_y + ratTrunc (((start_y : ℚ) - (target_y : ℚ)) * ((elapsed - 1 / 2) / (1 / 2))))
  else none

/-- The do-while loop of animate_movement, with the monotonic clock
abstracted as the list of elapsed-time samples the loop would read.
Returns the Y values written inside the loop and whether the loop
exited (it exits only through the break, because both writing branches
require elapsed below the duration, making the while condition true
whenever it is reached; with finitely many samples the loop may instead
run out of samples, flagged false). -/
def animate_loop (start_y target_y : Int) : List ℚ → List Int × Bool
  | [] => ([], false)
  | e :: es =>
    match animate_frame_y start_y target_y e with
    | some y =>
      let r := animate_loop start_y target_y es
      (y :: r.1, r.2)
    | none => ([], true)

/-- animate_movement: run the loop over the clock samples; when the loop
exits, one final write forces Y back to start_y exactly.  Returns the
full list of Y values written and the exit flag. -/
def animate_movement (start_y target_y : Int) (samples : List ℚ) :
    List Int × Bool :=
  (if (animate_loop start_y target_y samples).2 then
     (animate_loop start_y target_y samples).1 ++ [start_y]
   else (animate_loop start_y target_y samples).1,
   (animate_loop start_y target_y samples).2)

/-- The spec's first-half interpolation formula: progress = elapsed /
(duration/2); Y = base + (target - base) * progress, truncated to
integer. -/
def spec_y_outward (base target : Int) (elapsed duration : ℚ) : Int :=
  base + ratTrunc (((target : ℚ) - (base : ℚ)) * (elapsed / (duration / 2)))

/-- The spec's second-half interpolation formula: progress = (elapsed -
duration/2) / (duration/2); Y = target + (base - target) * progress,
truncated to integer. -/
def spec_y_homeward (base target : Int) (elapsed duration : ℚ) : Int :=
  target + ratTrunc (((base : ℚ) - (target : ℚ)) * ((elapsed - duration / 2) / (duration / 2)))

/-- C5: whenever the animation loop exits because a sampled elapsed time
reached the duration, the last Y value written by the whole
animate_movement call is exactly start_y, the base position. -/
theorem animate_final_write_is_base (start_y target_y : Int)
    (samples : List ℚ)
    (h : (animate_movement start_y target_y samples).2 = true) :
    ((animate_movement start_y target_y samples).1).getLast? = some start_y := by
  unfold animate_movement at h ⊢
  rw [if_pos h]
  exact List.getLast?_concat _

/-- Closed instance of animate_final_write_is_base: a session sampled at
elapsed times 0, 1/4, 3/4 and 9/8 seconds exits and its last write is
the base Y. -/
theorem animate_final_write_is_base_witness :
    (animate_movement 304 272 [0, 1/4, 3/4, 9/8]).2 = true ∧
    ((animate_movement 304 272 [0, 1/4, 3/4, 9/8]).1).getLast? = some 304 := by
  have h : (animate_movement 304 272 [0, 1/4, 3/4, 9/8]).2 = true := by
    norm_num [animate_movement, animate_loop, animate_frame_y]
  exact ⟨h, animate_final_write_is_base 304 272 [0, 1/4, 3/4, 9/8] h⟩

/-- C6: for elapsed time below duration/2 the frame writes exactly the
spec's outward interpolation formula, and for elapsed time in
[duration/2, duration) exactly the spec's homeward formula, with the
source's fixed duration of 1 second. -/
theorem animate_interpolation_matches_spec (start_y target_y : Int) (e : ℚ) :
    (e < 1 / 2 →
      animate_frame_y start_y target_y e =
        some (spec_y_outward start_y target_y e 1)) ∧
    (1 / 2 ≤ e → e < 1 →
      animate_frame_y start_y target_y e =
        some (spec_y_homeward start_y target_y e 1)) := by
  constructor
  · intro h1
    rw [animate_frame_y, if_pos h1]
    norm_num [spec_y_outward]
  · intro h1 h2
    rw [animate_frame_y, if_neg (by linarith), if_pos h2]
    norm_num [spec_y_homeward]

/-- Closed instance of animate_interpolation_matches_spec at the sample
points elapsed = 1/4 and elapsed = 3/4 with base 304 and target 272. -/
theorem animate_interpolation_witness :
    animate_frame_y 304 272 (1/4) = some (spec_y_outward 304 272 (1/4) 1) ∧
    animate_frame_y 304 272 (3/4) = some (spec_y_homeward 304 272 (3/4) 1) ∧
    spec_y_outward 304 272 (1/4) 1 = 288 ∧
    spec_y_homeward 304 272 (3/4) 1 = 288 := by
  refine ⟨(animate_interpolation_matches_spec 304 272 (1/4)).1 (by norm_num),
    (animate_interpolation_matches_spec 304 272 (3/4)).2 (by norm_num) (by norm_num),
    ?_, ?_⟩
  · have h1 : (((272 : Int) : ℚ) - ((304 : Int) : ℚ)) * ((1/4 : ℚ) / (1 / 2)) =
        (((-16 : Int) : ℚ)) := by
      norm_num
    rw [spec_y_outward, h1, ratTrunc, if_neg (by norm_num), Int.ceil_intCast]
    norm_num
  · have h2 : (((304 : Int) : ℚ) - ((272 : Int) : ℚ)) * (((3/4 : ℚ) - 1 / 2) / (1 / 2)) =
        (((16 : Int) : ℚ)) := by
      norm_num
    rw [spec_y_homeward, h2, ratTrunc, if_pos (by norm_num), Int.floor_intCast]
    norm_num
